import Mathlib

/-!
Verification of the wireguardsim topology compiler (`wireguardsim.py`).

The compiler translates a declarative topology (nodes, links, per-port
addressing) into a flat, ordered list of namespace-configuration commands
(setup) and a second list of namespace deletions (cleanup).

The embedding below mirrors the Python source:
* generator functions yielding command strings become Lean functions
  returning `List String`;
* Python `dict.get(k)` on an optional key becomes an `Option` field;
* a Python exception raised while the command lists are being assembled
  (a `KeyError` from a missing mandatory key, or a `TypeError` from calling
  `ip_netns_exec` with the wrong number of arguments) becomes `Except.error`.
  In the source all such exceptions fire while the generator arguments of
  `generate_script` are being constructed, i.e. before any command has been
  appended to the script, so the compilation is all-or-nothing and is
  faithfully modelled as `Except String (List String)`.
-/

/-- A port record: `{ip_address, gateway?, masquerade?}`.  `ip_address` is
looked up with a mandatory subscript `port['ip_address']` in `main`, but the
key may be absent from the document, hence `Option`; `gateway` and
`masquerade` are read with `.get`, an absent `masquerade` key being falsy. -/
structure Port where
  ip_address : Option String
  gateway : Option String
  masquerade : Bool
deriving DecidableEq, Repr

/-- A node record: `{name, type, ports}`.  `name` and `ports` are accessed by
mandatory subscript; `type` is also accessed by subscript (`node['type']`) but
the document may omit the key, hence `Option` (the lookup of an absent key
raises `KeyError`, modelled in `resolveBehavior`). -/
structure Node where
  name : String
  type? : Option String
  ports : List Port
deriving DecidableEq, Repr

/-- One side of a link: `{name, port?}`; `port` is read with `.get('port')`. -/
structure Endpoint where
  name : String
  port : Option Nat
deriving DecidableEq, Repr

/-- A link record: `{source, destination}`. -/
structure Link where
  source : Endpoint
  destination : Endpoint
deriving DecidableEq, Repr

/-- The parsed topology document: `{nodes, links}`. -/
structure Topology where
  nodes : List Node
  links : List Link
deriving DecidableEq, Repr

/-! ### Operation emitters (lines 10–69 of the source) -/

/-- `_ip_netns_exec(nsname, cmd)`: `f"ip netns exec {nsname} {cmd}"`. -/
def ip_netns_exec_one (nsname cmd : String) : String :=
  "ip netns exec " ++ nsname ++ " " ++ cmd

/-- `ip_netns_exec(nsname, cmds)`: prefix every command with the
namespace-scoping wrapper. -/
def ip_netns_exec (nsname : String) (cmds : List String) : List String :=
  cmds.map (ip_netns_exec_one nsname)

/-- `build_namespace(name)`: yield `f"ip netns add {name}"`. -/
def build_namespace (name : String) : List String :=
  ["ip netns add " ++ name]

/-- `build_veth(source, destination)` (lines 23–37).  The port of each
endpoint is normalised by `port or 0` (an absent port defaults to 0); the
later `or 0` occurrences in the source act on the already-normalised value
and are the identity. -/
def build_veth (source destination : String × Option Nat) : List String :=
  let src := source.1
  let src_port := source.2.getD 0
  let dst := destination.1
  let dst_port := destination.2.getD 0
  [ "ip link add veth" ++ src ++ toString src_port ++
      " type veth peer name veth" ++ dst ++ toString dst_port,
    "ip link set veth" ++ src ++ toString src_port ++ " netns " ++ src,
    "ip link set veth" ++ dst ++ toString dst_port ++ " netns " ++ dst,
    ip_netns_exec_one src ("ip link set veth" ++ src ++ toString src_port ++ " up"),
    ip_netns_exec_one dst ("ip link set veth" ++ dst ++ toString dst_port ++ " up") ]

/-- `add_bridge(bridge_name)`. -/
def add_bridge (bridge_name : String) : List String :=
  ["ip link add " ++ bridge_name ++ " type bridge"]

/-- `bridge_veth(veth_name, bridge_name)`. -/
def bridge_veth (veth_name bridge_name : String) : List String :=
  ["ip link set veth" ++ veth_name ++ " master " ++ bridge_name]

/-- `veth_up(veth_name)`. -/
def veth_up (veth_name : String) : List String :=
  ["ip link set " ++ veth_name ++ " up"]

/-- `add_ip(veth_name, ip)`. -/
def add_ip (veth_name ip : String) : List String :=
  ["ip addr add " ++ ip ++ " dev " ++ veth_name]

/-- `add_route(network, next_hop)`. -/
def add_route (network next_hop : String) : List String :=
  ["ip route add " ++ network ++ " via " ++ next_hop]

/-- `masquerade(veth_name)`. -/
def masquerade (veth_name : String) : List String :=
  ["iptables -t nat -A POSTROUTING -o " ++ veth_name ++ " -j MASQUERADE"]

/-- `clean_ns(nsname)`. -/
def clean_ns (nsname : String) : List String :=
  ["ip netns del " ++ nsname]

/-- Alias for the module-level `build_namespace` emitter, needed because the
method `BaseNode.build_namespace` below shadows the module-level name. -/
def emit_build_namespace : String → List String :=
  build_namespace

/-! ### Node behaviour variants (classes `BaseNode` and `Router`) -/

/-- The behaviour variant a node's `type` dispatches to; only `BaseNode`
and `Router` exist in the source (`type_map = {'router': Router}`). -/
inductive NodeBehavior where
  | base
  | router
deriving DecidableEq, Repr

/-- `BaseNode.build_namespace` (the `forward_ip4` line is commented out in
the source). -/
def BaseNode.build_namespace (name : String) : List String :=
  emit_build_namespace name

/-- `BaseNode.configure_veths`: `iter([])`. -/
def BaseNode.configure_veths (selfName name : String) (port : Option Nat) : List String :=
  []

/-- `BaseNode.configure_ip(port, ip_address, gateway, name=None)`:
`name = name or f'veth{self.name}{port}'` (a `None` or empty `name` falls
back to the veth device), then an address assignment and, when `gateway` is
truthy (present and nonempty), a default route, both namespace-wrapped. -/
def BaseNode.configure_ip (selfName : String) (port : Nat) (ip_address : String)
    (gateway : Option String) (nameArg : Option String) : List String :=
  let devname :=
    match nameArg with
    | some s => if s = "" then "veth" ++ selfName ++ toString port else s
    | none => "veth" ++ selfName ++ toString port
  ip_netns_exec selfName (add_ip devname ip_address) ++
    (match gateway with
     | some gw => if gw = "" then [] else ip_netns_exec selfName (add_route "default" gw)
     | none => [])

/-- `BaseNode.configure_extra`: `iter([])`, never fails. -/
def BaseNode.configure_extra (node : Node) : Except String (List String) :=
  Except.ok []

/-- `Router.build_namespace`: the base namespace creation, then creation of
the internal bridge `br<name>` and bringing it up, namespace-wrapped. -/
def Router.build_namespace (name : String) : List String :=
  BaseNode.build_namespace name ++
    ip_netns_exec name (add_bridge ("br" ++ name)) ++
    ip_netns_exec name (veth_up ("br" ++ name))

/-- `Router.configure_veths`: act only when the endpoint names this node;
`port = port or 0`; port 0 stays un-bridged, a non-zero port's veth is
attached to the router's bridge. -/
def Router.configure_veths (selfName name : String) (port : Option Nat) : List String :=
  if name = selfName then
    let p := port.getD 0
    if p = 0 then []
    else
      BaseNode.configure_veths selfName name (some p) ++
        ip_netns_exec selfName (bridge_veth (selfName ++ toString p) ("br" ++ selfName))
  else BaseNode.configure_veths selfName name port

/-- `Router.configure_ip`: port 0 is addressed on the veth directly, any
other port's assignment is redirected to the bridge `br<name>`. -/
def Router.configure_ip (selfName : String) (port : Nat) (ip_address : String)
    (gateway : Option String) : List String :=
  if port = 0 then BaseNode.configure_ip selfName port ip_address gateway none
  else BaseNode.configure_ip selfName port ip_address gateway (some ("br" ++ selfName))

/-- The generator-per-flagged-port comprehension in `Router.configure_extra`:
`(masquerade(f'veth{name}{i}') for i, port in enumerate(ports) if
port.get('masquerade'))`, one command list per flagged port, indices counted
from `i`. -/
def masqFlagged (name : String) : Nat → List Port → List (List String)
  | _, [] => []
  | i, p :: rest =>
    (if p.masquerade then [masquerade ("veth" ++ name ++ toString i)] else []) ++
      masqFlagged name (i + 1) rest

/-- `Router.configure_extra(node)`: the flagged-port generators are
star-unpacked into `ip_netns_exec(name, *gens)`.  `ip_netns_exec` takes
exactly two positional parameters, so the call binds only when exactly one
port is flagged; zero or two-or-more flagged ports raise a `TypeError` at
argument-binding time. -/
def Router.configure_extra (node : Node) : Except String (List String) :=
  match masqFlagged node.name 0 node.ports with
  | [cmds] => Except.ok (ip_netns_exec node.name cmds)
  | _ => Except.error "TypeError: ip_netns_exec() wrong number of arguments"

/-! ### Dispatch and the compiler (`type_map`, `generate_script`, `main`) -/

/-- `type_map.get(t, BaseNode)`: the module-level dispatch table
`{'router': Router}` with `BaseNode` as the lookup default. -/
def type_map_get (t : String) : NodeBehavior :=
  if t = "router" then NodeBehavior.router else NodeBehavior.base

/-- The per-node initialisation `type_map.get(node['type'], BaseNode)`:
the subscript `node['type']` raises `KeyError` when the key is absent;
otherwise an unknown type string falls back to `BaseNode`. -/
def resolveBehavior (n : Node) : Except String NodeBehavior :=
  match n.type? with
  | none => Except.error "KeyError: type"
  | some t => Except.ok (type_map_get t)

/-- The initialisation loop of `main` (lines 181–183), pairing each node
with its behaviour variant; the first missing `type` key aborts. -/
def initNodes : List Node → Except String (List (Node × NodeBehavior))
  | [] => Except.ok []
  | n :: rest =>
    match resolveBehavior n with
    | Except.error e => Except.error e
    | Except.ok b =>
      match initNodes rest with
      | Except.error e => Except.error e
      | Except.ok l => Except.ok ((n, b) :: l)

/-- Dynamic dispatch of `build_namespace`. -/
def dispatch_build_namespace : NodeBehavior → String → List String
  | NodeBehavior.base => BaseNode.build_namespace
  | NodeBehavior.router => Router.build_namespace

/-- Dynamic dispatch of `configure_veths`. -/
def dispatch_configure_veths (b : NodeBehavior) (selfName name : String)
    (port : Option Nat) : List String :=
  match b with
  | NodeBehavior.base => BaseNode.configure_veths selfName name port
  | NodeBehavior.router => Router.configure_veths selfName name port

/-- Dynamic dispatch of `configure_ip` (with no explicit `name` argument, as
called from `main`). -/
def dispatch_configure_ip (b : NodeBehavior) (selfName : String) (port : Nat)
    (ip_address : String) (gateway : Option String) : List String :=
  match b with
  | NodeBehavior.base => BaseNode.configure_ip selfName port ip_address gateway none
  | NodeBehavior.router => Router.configure_ip selfName port ip_address gateway

/-- Dynamic dispatch of `configure_extra`. -/
def dispatch_configure_extra (b : NodeBehavior) (node : Node) : Except String (List String) :=
  match b with
  | NodeBehavior.base => BaseNode.configure_extra node
  | NodeBehavior.router => Router.configure_extra node

/-- Phase 1 of setup: `build_namespace()` for every node, in declared order. -/
def nsPhase (inits : List (Node × NodeBehavior)) : List String :=
  inits.flatMap fun nb => dispatch_build_namespace nb.2 nb.1.name

/-- Phase 2 of setup: `build_veth` for every link, in declared order. -/
def vethPhase (links : List Link) : List String :=
  links.flatMap fun l =>
    build_veth (l.source.name, l.source.port) (l.destination.name, l.destination.port)

/-- Phases 3 and 4 of setup: for every link (outer loop) and every node
(inner loop), `configure_veths` on the endpoint picked by `sel`. -/
def cfgVethPhase (inits : List (Node × NodeBehavior)) (links : List Link)
    (sel : Link → Endpoint) : List String :=
  links.flatMap fun l =>
    inits.flatMap fun nb =>
      dispatch_configure_veths nb.2 nb.1.name (sel l).name (sel l).port

/-- The inner loop of phase 5 for one node: `enumerate(node['ports'])`,
reading `port['ip_address']` with a mandatory subscript — an absent key
raises `KeyError`. -/
def portsIp (b : NodeBehavior) (selfName : String) : Nat → List Port → Except String (List String)
  | _, [] => Except.ok []
  | i, p :: rest =>
    match p.ip_address with
    | none => Except.error "KeyError: ip_address"
    | some ip =>
      match portsIp b selfName (i + 1) rest with
      | Except.error e => Except.error e
      | Except.ok l => Except.ok (dispatch_configure_ip b selfName i ip p.gateway ++ l)

/-- Phase 5 of setup: addressing, for every node in declared order. -/
def ipsPhase : List (Node × NodeBehavior) → Except String (List String)
  | [] => Except.ok []
  | nb :: rest =>
    match portsIp nb.2 nb.1.name 0 nb.1.ports with
    | Except.error e => Except.error e
    | Except.ok ops =>
      match ipsPhase rest with
      | Except.error e => Except.error e
      | Except.ok l => Except.ok (ops ++ l)

/-- Phase 6 of setup: `configure_extra` for every node in declared order. -/
def extrasPhase : List (Node × NodeBehavior) → Except String (List String)
  | [] => Except.ok []
  | nb :: rest =>
    match dispatch_configure_extra nb.2 nb.1 with
    | Except.error e => Except.error e
    | Except.ok ops =>
      match extrasPhase rest with
      | Except.error e => Except.error e
      | Except.ok l => Except.ok (ops ++ l)

/-- The setup sequence assembled by `main` (lines 189–209): namespaces,
veth pairs, veth configuration (source side then destination side),
addressing, extras, concatenated in that order.  Every `KeyError` /
`TypeError` of the source fires while the generator arguments are built,
before any command is emitted, so a failing topology yields `Except.error`
and no partial script. -/
def setupScript (topo : Topology) : Except String (List String) :=
  match initNodes topo.nodes with
  | Except.error e => Except.error e
  | Except.ok inits =>
    match ipsPhase inits with
    | Except.error e => Except.error e
    | Except.ok ips =>
      match extrasPhase inits with
      | Except.error e => Except.error e
      | Except.ok extras =>
        Except.ok (nsPhase inits ++ vethPhase topo.links ++
          cfgVethPhase inits topo.links Link.source ++
          cfgVethPhase inits topo.links Link.destination ++
          ips ++ extras)

/-- The cleanup sequence assembled by `main` (lines 211–215): `clean_ns`
for every node, in declared order. -/
def cleanupScript (topo : Topology) : List String :=
  topo.nodes.flatMap fun n => clean_ns n.name

/-- Extract the payload of an `Except`, with a default. -/
def exceptD {α : Type} (e : Except String α) (d : α) : α :=
  match e with
  | Except.ok a => a
  | Except.error _ => d

/-! ### Concrete topologies used as witnesses and counterexamples -/

/-- The router of the spec's example scenario: two ports, the second one
flagged for masquerading. -/
def exR1 : Node :=
  { name := "r1", type? := some "router",
    ports := [ { ip_address := some "10.0.0.1/24", gateway := none, masquerade := false },
               { ip_address := some "10.0.1.1/24", gateway := none, masquerade := true } ] }

/-- The host of the spec's example scenario. -/
def exC1 : Node :=
  { name := "c1", type? := some "host",
    ports := [ { ip_address := some "10.0.1.2/24", gateway := some "10.0.1.1", masquerade := false } ] }

/-- The spec's example scenario: router `r1` linked (port 1) to host `c1`
(port unset). -/
def exTopo : Topology :=
  { nodes := [exR1, exC1],
    links := [ { source := { name := "r1", port := some 1 },
                 destination := { name := "c1", port := none } } ] }

/-- The node pairing produced by the initialisation loop on `exTopo`. -/
def exInits : List (Node × NodeBehavior) :=
  exceptD (initNodes exTopo.nodes) []

/-- The setup sequence compiled from `exTopo`. -/
def exScript : List String :=
  exceptD (setupScript exTopo) []

/-- A node record with no `type` key at all. -/
def nodeNoType : Node :=
  { name := "n1", type? := none, ports := [] }

/-- A topology containing a node with no `type` key. -/
def topoNoType : Topology :=
  { nodes := [nodeNoType], links := [] }

/-- A node whose declared type string is absent from the dispatch table. -/
def nodeGizmo : Node :=
  { name := "g1", type? := some "gizmo",
    ports := [ { ip_address := some "10.9.0.1/24", gateway := none, masquerade := false } ] }

/-- A router node none of whose ports carries the masquerade flag. -/
def rNoFlag : Node :=
  { name := "r1", type? := some "router",
    ports := [ { ip_address := some "10.0.0.1/24", gateway := none, masquerade := false } ] }

/-- A router node with two masquerade-flagged ports. -/
def rTwoFlags : Node :=
  { name := "r1", type? := some "router",
    ports := [ { ip_address := some "10.0.0.1/24", gateway := none, masquerade := true },
               { ip_address := some "10.0.1.1/24", gateway := none, masquerade := true } ] }

/-- A host node carrying a masquerade flag on its only port. -/
def hostFlagged : Node :=
  { name := "h1", type? := some "host",
    ports := [ { ip_address := some "10.0.0.2/24", gateway := none, masquerade := true } ] }

/-- A topology whose only router has zero masquerade-flagged ports. -/
def topoRouterNoFlag : Topology :=
  { nodes := [rNoFlag], links := [] }

/-- A host node with one addressed port, used in the dangling-link topology. -/
def nodeH1 : Node :=
  { name := "h1", type? := some "host",
    ports := [ { ip_address := some "10.0.0.1/24", gateway := none, masquerade := false } ] }

/-- A topology with a link whose destination names a node (`ghost`) that is
absent from the declared nodes list. -/
def topoDangling : Topology :=
  { nodes := [nodeH1],
    links := [ { source := { name := "h1", port := none },
                 destination := { name := "ghost", port := none } } ] }

/-- The setup sequence compiled from `topoDangling`. -/
def exScriptDangling : List String :=
  exceptD (setupScript topoDangling) []

/-- A topology whose only node's only port omits `ip_address`. -/
def topoNoIp : Topology :=
  { nodes := [ { name := "h1", type? := some "host",
                 ports := [ { ip_address := none, gateway := none, masquerade := false } ] } ],
    links := [] }

/-- A two-node topology whose second node's second port omits `ip_address`. -/
def topoNoIp2 : Topology :=
  { nodes := [ nodeH1,
               { name := "h2", type? := some "host",
                 ports := [ { ip_address := some "10.0.0.2/24", gateway := none, masquerade := false },
                            { ip_address := none, gateway := none, masquerade := false } ] } ],
    links := [] }

/-! ### String reasoning helpers -/

/-- Strings with equal character data are equal. -/
theorem string_eq_of_data {a b : String} (h : a.data = b.data) : a = b := by
  cases a; cases b; exact congrArg String.mk h

/-- Left cancellation for string concatenation. -/
theorem string_append_cancel (p a b : String) (h : p ++ a = p ++ b) : a = b := by
  apply string_eq_of_data
  have hd : (p ++ a).data = (p ++ b).data := congrArg String.data h
  rw [String.data_append, String.data_append] at hd
  exact List.append_cancel_left hd

/-- Two concatenations whose left parts differ at a character position that
both left parts cover are different strings. -/
theorem string_append_ne (p q a b : String) (i : Nat)
    (hip : i < p.data.length) (hiq : i < q.data.length)
    (hne : p.data[i]? ≠ q.data[i]?) : p ++ a ≠ q ++ b := by
  intro h
  apply hne
  have hd : (p ++ a).data = (q ++ b).data := congrArg String.data h
  rw [String.data_append, String.data_append] at hd
  calc p.data[i]? = (p.data ++ a.data)[i]? := (List.getElem?_append_left hip).symm
    _ = (q.data ++ b.data)[i]? := by rw [hd]
    _ = q.data[i]? := List.getElem?_append_left hiq

/-- Every namespace-wrapped command is of the form `"ip netns exec " ++ _`. -/
theorem exec_form (nsname cmd : String) :
    ∃ a, ip_netns_exec_one nsname cmd = "ip netns exec " ++ a :=
  ⟨nsname ++ (" " ++ cmd), by
    show "ip netns exec " ++ nsname ++ " " ++ cmd = _
    rw [String.append_assoc, String.append_assoc]⟩

/-- A namespace-creation command is never a namespace-wrapped command. -/
theorem nsAdd_ne_exec (a b : String) :
    "ip netns add " ++ a ≠ "ip netns exec " ++ b :=
  string_append_ne _ _ _ _ 9 (by decide) (by decide) (by decide)

/-- A namespace-creation command is never `ip_netns_exec_one` output. -/
theorem nsAdd_ne_exec_one (a nsname cmd : String) :
    "ip netns add " ++ a ≠ ip_netns_exec_one nsname cmd := by
  obtain ⟨x, hx⟩ := exec_form nsname cmd
  rw [hx]
  exact nsAdd_ne_exec a x

/-- A bridge device name is never empty (truthiness of the `name` argument
in `BaseNode.configure_ip`). -/
theorem br_ne_empty (name : String) : "br" ++ name ≠ "" := by
  intro h
  have hd : ("br" ++ name).data = ("" : String).data := congrArg String.data h
  rw [String.data_append] at hd
  simp at hd

/-- A veth device name never coincides with a bridge device name. -/
theorem veth_ne_br (x y : String) : "veth" ++ x ≠ "br" ++ y :=
  string_append_ne _ _ _ _ 0 (by decide) (by decide) (by decide)

/-! ### Structural facts about the compiler -/

/-- The topology invariant of §3: every link endpoint names a declared node. -/
def linksDeclared (topo : Topology) : Prop :=
  ∀ l ∈ topo.links, l.source.name ∈ topo.nodes.map Node.name ∧
    l.destination.name ∈ topo.nodes.map Node.name

/-- The owning nodes of every device referenced by an operation of phases
2–6: phase 2 (`build_veth`) references the two endpoint nodes of each link;
phases 3–6 are emitted by a node about its own devices (`configure_veths`
filters to `name == self.name`, `configure_ip` and `configure_extra` run on
the node's own veths and bridge). -/
def laterOwners (topo : Topology) : List String :=
  (topo.links.flatMap fun l => [l.source.name, l.destination.name]) ++
    topo.nodes.map Node.name

/-- Successful initialisation pairs every declared node, in order, with a
behaviour variant. -/
theorem initNodes_map_fst : ∀ (l : List Node) (inits : List (Node × NodeBehavior)),
    initNodes l = Except.ok inits → inits.map Prod.fst = l := by
  intro l
  induction l with
  | nil =>
    intro inits h
    simp [initNodes] at h
    subst h
    rfl
  | cons n t ih =>
    intro inits h
    rw [initNodes] at h
    cases hr : resolveBehavior n with
    | error e => rw [hr] at h; cases h
    | ok b =>
      rw [hr] at h
      cases hi : initNodes t with
      | error e => rw [hi] at h; cases h
      | ok l2 =>
        rw [hi] at h
        cases h
        simp [List.map_cons, ih l2 hi]

/-- A successful compilation decomposes into the six phases in order. -/
theorem setup_decomp (topo : Topology) (inits : List (Node × NodeBehavior))
    (script : List String)
    (hinit : initNodes topo.nodes = Except.ok inits)
    (h : setupScript topo = Except.ok script) :
    ∃ ips extras, ipsPhase inits = Except.ok ips ∧
      extrasPhase inits = Except.ok extras ∧
      script = nsPhase inits ++
        (vethPhase topo.links ++
          (cfgVethPhase inits topo.links Link.source ++
            (cfgVethPhase inits topo.links Link.destination ++ (ips ++ extras)))) := by
  rw [setupScript, hinit] at h
  dsimp only at h
  cases hips : ipsPhase inits with
  | error e => rw [hips] at h; cases h
  | ok ips =>
    rw [hips] at h
    cases hex : extrasPhase inits with
    | error e => rw [hex] at h; cases h
    | ok extras =>
      rw [hex] at h
      cases h
      exact ⟨ips, extras, rfl, rfl, by simp [List.append_assoc]⟩

/-- Whatever the behaviour variant, `build_namespace` starts with the
namespace-creation command and its remaining commands are namespace-wrapped. -/
theorem dispatch_bn_head (b : NodeBehavior) (name : String) :
    dispatch_build_namespace b name =
      ("ip netns add " ++ name) :: (dispatch_build_namespace b name).drop 1 := by
  cases b <;> rfl

/-- The non-head commands of `build_namespace` are namespace-wrapped. -/
theorem dispatch_bn_drop_exec (b : NodeBehavior) (name : String) :
    ∀ s ∈ (dispatch_build_namespace b name).drop 1, ∃ a, s = "ip netns exec " ++ a := by
  cases b with
  | base => intro s hs; simp [dispatch_build_namespace, BaseNode.build_namespace,
      emit_build_namespace, build_namespace] at hs
  | router =>
    intro s hs
    simp [dispatch_build_namespace, Router.build_namespace, BaseNode.build_namespace,
      emit_build_namespace, build_namespace, ip_netns_exec, add_bridge, veth_up] at hs
    rcases hs with rfl | rfl
    · exact exec_form name ("ip link add " ++ ("br" ++ name) ++ " type bridge")
    · exact exec_form name ("ip link set " ++ ("br" ++ name) ++ " up")

/-- Every declared node's namespace-creation command sits inside the
namespace phase, at an index below the phase's length. -/
theorem nsPhase_mem_nsAdd : ∀ (inits : List (Node × NodeBehavior)) (name : String),
    name ∈ inits.map (fun p => p.1.name) →
    ∃ i, i < (nsPhase inits).length ∧
      (nsPhase inits)[i]? = some ("ip netns add " ++ name) := by
  intro inits
  induction inits with
  | nil => intro name h; simp at h
  | cons nb t ih =>
    intro name h
    rw [List.map_cons, List.mem_cons] at h
    have hns : nsPhase (nb :: t) =
        dispatch_build_namespace nb.2 nb.1.name ++ nsPhase t := rfl
    have hlen0 : 0 < (dispatch_build_namespace nb.2 nb.1.name).length := by
      rw [dispatch_bn_head]; simp
    cases h with
    | inl heq =>
      refine ⟨0, ?_, ?_⟩
      · rw [hns, List.length_append]; omega
      · rw [hns, List.getElem?_append_left hlen0, dispatch_bn_head, heq]; simp
    | inr hmem =>
      obtain ⟨i, hi, hget⟩ := ih name hmem
      refine ⟨(dispatch_build_namespace nb.2 nb.1.name).length + i, ?_, ?_⟩
      · rw [hns, List.length_append]; omega
      · rw [hns, List.getElem?_append_right (by omega)]
        simpa [Nat.add_sub_cancel_left] using hget

/-- The namespace phase contains exactly as many namespace-creation commands
for a given name as there are nodes of that name. -/
theorem count_nsPhase : ∀ (inits : List (Node × NodeBehavior)) (name : String),
    (nsPhase inits).count ("ip netns add " ++ name) =
      (inits.map fun p => p.1.name).count name := by
  intro inits name
  induction inits with
  | nil => rfl
  | cons nb t ih =>
    have hns : nsPhase (nb :: t) =
        dispatch_build_namespace nb.2 nb.1.name ++ nsPhase t := rfl
    rw [hns, List.count_append, ih, List.map_cons, List.count_cons]
    have hblock : (dispatch_build_namespace nb.2 nb.1.name).count ("ip netns add " ++ name)
        = if nb.1.name = name then 1 else 0 := by
      rw [dispatch_bn_head nb.2 nb.1.name, List.count_cons]
      have hrest : ((dispatch_build_namespace nb.2 nb.1.name).drop 1).count
          ("ip netns add " ++ name) = 0 := by
        rw [List.count_eq_zero]
        intro hmem
        obtain ⟨a, ha⟩ := dispatch_bn_drop_exec nb.2 nb.1.name _ hmem
        exact nsAdd_ne_exec name a ha
      rw [hrest]
      by_cases h : nb.1.name = name
      · subst h; simp
      · have : ¬("ip netns add " ++ nb.1.name = "ip netns add " ++ name) :=
          fun hc => h (string_append_cancel _ _ _ hc)
        simp [h, this]
    rw [hblock]
    by_cases h : nb.1.name = name <;> simp [h] <;> omega

/-- The addressing loop for one node's ports fails whenever some port
omits `ip_address`. -/
theorem portsIp_missing (b : NodeBehavior) (selfName : String) :
    ∀ (i : Nat) (ports : List Port), (∃ p ∈ ports, p.ip_address = none) →
      ∃ e, portsIp b selfName i ports = Except.error e := by
  intro i ports
  induction ports generalizing i with
  | nil => intro h; simp at h
  | cons p rest ih =>
    intro h
    cases hip : p.ip_address with
    | none => exact ⟨"KeyError: ip_address", by rw [portsIp, hip]⟩
    | some ip =>
      obtain ⟨q, hq, hqnone⟩ := h
      rw [List.mem_cons] at hq
      have hrest : ∃ q ∈ rest, q.ip_address = none := by
        cases hq with
        | inl he => subst he; rw [hip] at hqnone; cases hqnone
        | inr hm => exact ⟨q, hm, hqnone⟩
      obtain ⟨e, he⟩ := ih (i + 1) hrest
      exact ⟨e, by rw [portsIp, hip, he]⟩

/-- The addressing phase fails whenever some node's port omits
`ip_address`. -/
theorem ipsPhase_missing : ∀ (inits : List (Node × NodeBehavior)),
    (∃ nb ∈ inits, ∃ p ∈ nb.1.ports, p.ip_address = none) →
    ∃ e, ipsPhase inits = Except.error e := by
  intro inits
  induction inits with
  | nil => intro h; simp at h
  | cons nb t ih =>
    intro h
    obtain ⟨mb, hmb, hp⟩ := h
    rw [List.mem_cons] at hmb
    cases hmb with
    | inl he =>
      subst he
      obtain ⟨e, he⟩ := portsIp_missing mb.2 mb.1.name 0 mb.1.ports hp
      exact ⟨e, by rw [ipsPhase, he]⟩
    | inr hm =>
      cases hhd : portsIp nb.2 nb.1.name 0 nb.1.ports with
      | error e => exact ⟨e, by rw [ipsPhase, hhd]⟩
      | ok ops =>
        obtain ⟨e, he⟩ := ih ⟨mb, hm, hp⟩
        exact ⟨e, by rw [ipsPhase, hhd, he]⟩

/-! ### Claims -/

/-- **C9** — For every topology, compiling it twice produces identical setup
operation sequences and identical cleanup operation sequences: under the
embedding the compilation from parsed topology to operation lists is a pure
function of its input (the source has no other input: no randomness, no
environment reads, and Python dict/list iteration order is the declared
document order), so equal parsed topologies compile to equal sequences. -/
theorem claim9_determinism (t1 t2 : Topology) (h : t1 = t2) :
    setupScript t1 = setupScript t2 ∧ cleanupScript t1 = cleanupScript t2 := by
  subst h
  exact ⟨rfl, rfl⟩

/-- Witness for C9 at the spec's example topology. -/
theorem claim9_witness :
    setupScript exTopo = setupScript exTopo ∧
      cleanupScript exTopo = cleanupScript exTopo :=
  claim9_determinism exTopo exTopo rfl

/-- **C5** — For every topology with pairwise-distinct node names, the
cleanup sequence is exactly one `delete-namespace` command per declared node,
in declared node order (first conjunct), hence contains each node's deletion
exactly once (second conjunct) and nothing else (third conjunct); and it
depends only on the declared node names, not on types, ports or links
(fourth conjunct). -/
theorem claim5_cleanup_complete (topo : Topology)
    (hdist : (topo.nodes.map Node.name).Nodup) :
    cleanupScript topo = topo.nodes.map (fun n => "ip netns del " ++ n.name) ∧
    (∀ n ∈ topo.nodes, (cleanupScript topo).count ("ip netns del " ++ n.name) = 1) ∧
    (∀ s ∈ cleanupScript topo, ∃ n ∈ topo.nodes, s = "ip netns del " ++ n.name) ∧
    (∀ topo2 : Topology, topo2.nodes.map Node.name = topo.nodes.map Node.name →
      cleanupScript topo2 = cleanupScript topo) := by
  have hinj : Function.Injective (fun s => "ip netns del " ++ s) :=
    fun a b h => string_append_cancel _ a b h
  have hmap : ∀ t : Topology, cleanupScript t =
      (t.nodes.map Node.name).map (fun s => "ip netns del " ++ s) := by
    intro t
    show (t.nodes.flatMap fun n => ["ip netns del " ++ n.name]) = _
    rw [List.map_map]
    exact (List.map_eq_flatMap _ _).symm
  refine ⟨?_, ?_, ?_, ?_⟩
  · rw [hmap, List.map_map]; rfl
  · intro n hn
    rw [hmap, List.count_map_of_injective _ _ hinj]
    exact List.count_eq_one_of_mem hdist (List.mem_map_of_mem Node.name hn)
  · intro s hs
    rw [hmap] at hs
    obtain ⟨nm, hnm, rfl⟩ := List.mem_map.mp hs
    obtain ⟨n, hn, rfl⟩ := List.mem_map.mp hnm
    exact ⟨n, hn, rfl⟩
  · intro topo2 h2
    rw [hmap, hmap, h2]

/-- Witness for C5 at the spec's example topology. -/
theorem claim5_witness :
    cleanupScript exTopo = exTopo.nodes.map (fun n => "ip netns del " ++ n.name) ∧
    (∀ n ∈ exTopo.nodes, (cleanupScript exTopo).count ("ip netns del " ++ n.name) = 1) ∧
    (∀ s ∈ cleanupScript exTopo, ∃ n ∈ exTopo.nodes, s = "ip netns del " ++ n.name) ∧
    (∀ topo2 : Topology, topo2.nodes.map Node.name = exTopo.nodes.map Node.name →
      cleanupScript topo2 = cleanupScript exTopo) :=
  claim5_cleanup_complete exTopo (by decide)

/-- **C7** — The five commands of `create-veth-pair` for endpoints `(A, pA)`
and `(B, pB)` (an unset port defaulting to 0): the pair is created under the
names `veth<A><pA>` / `veth<B><pB>`, each device is moved into its endpoint
node's namespace, and both ends are brought up inside those namespaces; and
a router's `build_namespace` creates its bridge device under the name
`br<nodeName>` and brings it up. -/
theorem claim7_device_naming (A B : String) (pA pB : Option Nat) :
    build_veth (A, pA) (B, pB) =
      [ "ip link add veth" ++ A ++ toString (pA.getD 0) ++
          " type veth peer name veth" ++ B ++ toString (pB.getD 0),
        "ip link set veth" ++ A ++ toString (pA.getD 0) ++ " netns " ++ A,
        "ip link set veth" ++ B ++ toString (pB.getD 0) ++ " netns " ++ B,
        "ip netns exec " ++ A ++ " " ++
          ("ip link set veth" ++ A ++ toString (pA.getD 0) ++ " up"),
        "ip netns exec " ++ B ++ " " ++
          ("ip link set veth" ++ B ++ toString (pB.getD 0) ++ " up") ] ∧
    Router.build_namespace A =
      [ "ip netns add " ++ A,
        "ip netns exec " ++ A ++ " " ++ ("ip link add " ++ ("br" ++ A) ++ " type bridge"),
        "ip netns exec " ++ A ++ " " ++ ("ip link set " ++ ("br" ++ A) ++ " up") ] :=
  ⟨rfl, rfl⟩

/-- **C3** — The masquerade-scoping claim is right about which ports are
flagged (only `masquerade: true` ports of router nodes, cf. the `exR1`
conjunct, and host/cloud nodes dispatch to `BaseNode.configure_extra`, which
produces nothing even for a flagged port), but its "in particular" sentence
is false on the code: `Router.configure_extra` star-unpacks the per-flagged-
port generators into `ip_netns_exec(name, *gens)`, a function of exactly two
positional parameters, so a router with zero flagged ports (or two or more)
raises `TypeError` instead of compiling — only exactly one flagged port
binds.  This is a slip (the comprehension is written to produce any number
of generators); the spec's contract is the intent. -/
theorem claim3_masquerade_typeerror :
    Router.configure_extra rNoFlag =
      Except.error "TypeError: ip_netns_exec() wrong number of arguments" ∧
    Router.configure_extra rTwoFlags =
      Except.error "TypeError: ip_netns_exec() wrong number of arguments" ∧
    Router.configure_extra exR1 =
      Except.ok ["ip netns exec r1 iptables -t nat -A POSTROUTING -o vethr11 -j MASQUERADE"] ∧
    BaseNode.configure_extra hostFlagged = Except.ok [] ∧
    setupScript topoRouterNoFlag =
      Except.error "TypeError: ip_netns_exec() wrong number of arguments" :=
  ⟨rfl, rfl, rfl, rfl, rfl⟩

/-- **C4, counterexample** — A node record with no `type` field at all does
not resolve to the default host behaviour: the subscript `node['type']`
raises `KeyError` and compilation aborts before producing anything. -/
theorem claim4_counterexample :
    resolveBehavior nodeNoType = Except.error "KeyError: type" ∧
    setupScript topoNoType = Except.error "KeyError: type" :=
  ⟨rfl, rfl⟩

/-- **C4, amended** — A node whose declared `type` string is present but
absent from the dispatch table resolves to the default host (`BaseNode`)
variant, and initialisation proceeds for every topology all of whose nodes
carry a `type` key; but a node record with no `type` field at all aborts
behaviour resolution with a key-lookup error. -/
theorem claim4_unknown_type_defaults :
    (∀ (n : Node) (t : String), n.type? = some t → t ≠ "router" →
      resolveBehavior n = Except.ok NodeBehavior.base) ∧
    (∀ nodes : List Node, (∀ m ∈ nodes, (m.type?).isSome) →
      ∃ inits, initNodes nodes = Except.ok inits) ∧
    (∀ n : Node, n.type? = none → resolveBehavior n = Except.error "KeyError: type") := by
  refine ⟨?_, ?_, ?_⟩
  · intro n t ht hr
    simp [resolveBehavior, ht, type_map_get, hr]
  · intro nodes hall
    induction nodes with
    | nil => exact ⟨[], rfl⟩
    | cons n t ih =>
      obtain ⟨inits, hinits⟩ := ih (fun m hm => hall m (List.mem_cons_of_mem n hm))
      have hn := hall n (List.mem_cons_self n t)
      cases ht : n.type? with
      | none => rw [ht] at hn; cases hn
      | some ty =>
        exact ⟨(n, type_map_get ty) :: inits, by rw [initNodes, resolveBehavior, ht, hinits]⟩
  · intro n hn
    rw [resolveBehavior, hn]

/-- Witness for C4 at a node of unknown type `gizmo` and at `nodeNoType`. -/
theorem claim4_witness :
    resolveBehavior nodeGizmo = Except.ok NodeBehavior.base ∧
    (∃ inits, initNodes [nodeGizmo] = Except.ok inits) ∧
    resolveBehavior nodeNoType = Except.error "KeyError: type" :=
  ⟨claim4_unknown_type_defaults.1 nodeGizmo "gizmo" rfl (by decide),
   claim4_unknown_type_defaults.2.1 [nodeGizmo] (by decide),
   claim4_unknown_type_defaults.2.2 nodeNoType rfl⟩

/-- **C8, counterexample** — A topology whose declared port omits
`ip_address` fails to compile: the addressing phase reads
`port['ip_address']` with a mandatory subscript, raising `KeyError`. -/
theorem claim8_counterexample :
    setupScript topoNoIp = Except.error "KeyError: ip_address" :=
  rfl

/-- **C8, amended** — `ip_address` is mandatory, not optional: for every
topology whose nodes all initialise, if some declared port omits
`ip_address`, compilation fails with a key-lookup error; the addressing
phase does not tolerate its absence. -/
theorem claim8_missing_ip_fails (topo : Topology) (inits : List (Node × NodeBehavior))
    (hinit : initNodes topo.nodes = Except.ok inits)
    (hmissing : ∃ n ∈ topo.nodes, ∃ p ∈ n.ports, p.ip_address = none) :
    ∃ e, setupScript topo = Except.error e := by
  obtain ⟨n, hn, hp⟩ := hmissing
  have hfst := initNodes_map_fst _ _ hinit
  have hn2 : n ∈ inits.map Prod.fst := by rw [hfst]; exact hn
  obtain ⟨nb, hnb, hnbf⟩ := List.mem_map.mp hn2
  obtain ⟨e, he⟩ := ipsPhase_missing inits ⟨nb, hnb, by rw [hnbf]; exact hp⟩
  exact ⟨e, by rw [setupScript, hinit]; dsimp only; rw [he]⟩

/-- Witness for C8 at `topoNoIp2` (two hosts, second port of the second
host without an address). -/
theorem claim8_witness :
    ∃ e, setupScript topoNoIp2 = Except.error e :=
  claim8_missing_ip_fails topoNoIp2 (exceptD (initNodes topoNoIp2.nodes) []) rfl
    ⟨topoNoIp2.nodes.get ⟨1, by decide⟩, by decide,
     { ip_address := none, gateway := none, masquerade := false }, by decide, rfl⟩

/-- Successful initialisation preserves the declared node names, in order. -/
theorem initNodes_names (l : List Node) (inits : List (Node × NodeBehavior))
    (h : initNodes l = Except.ok inits) :
    inits.map (fun p => p.1.name) = l.map Node.name := by
  have hfst := initNodes_map_fst l inits h
  rw [← hfst, List.map_map]
  rfl

/-- **C6, counterexample** — A topology with a link whose destination names
the undeclared node `ghost` compiles successfully: no validation error is
raised, the veth operations referencing `ghost` are emitted, and `ghost`'s
namespace is never created.  This falsifies the claim that a dangling link
endpoint is a fatal validation error at topology-load time. -/
theorem claim6_counterexample :
    (∃ s, setupScript topoDangling = Except.ok s) ∧
    "ip link set vethghost0 netns ghost" ∈ exceptD (setupScript topoDangling) [] ∧
    "ip netns add ghost" ∉ exceptD (setupScript topoDangling) [] :=
  ⟨⟨exceptD (setupScript topoDangling) [], rfl⟩, by decide, by decide⟩

/-- **C6, amended** — No link validation exists: whenever compilation
succeeds, every declared link — including one whose endpoint names an
undeclared node — contributes its `create-veth-pair` operations to the
setup sequence, naming the endpoint's namespace and device; a dangling link
is neither rejected nor silently dropped. -/
theorem claim6_no_validation (topo : Topology) (script : List String)
    (hok : setupScript topo = Except.ok script) :
    ∀ l ∈ topo.links,
      ("ip link set veth" ++ l.source.name ++ toString (l.source.port.getD 0) ++
        " netns " ++ l.source.name) ∈ script ∧
      ("ip link set veth" ++ l.destination.name ++ toString (l.destination.port.getD 0) ++
        " netns " ++ l.destination.name) ∈ script := by
  intro l hl
  cases hin : initNodes topo.nodes with
  | error e => rw [setupScript, hin] at hok; cases hok
  | ok inits =>
    obtain ⟨ips, extras, hips, hex, hscript⟩ := setup_decomp topo inits script hin hok
    have hsrc : ("ip link set veth" ++ l.source.name ++ toString (l.source.port.getD 0) ++
        " netns " ++ l.source.name) ∈ vethPhase topo.links := by
      refine List.mem_flatMap.mpr ⟨l, hl, ?_⟩
      simp [build_veth]
    have hdst : ("ip link set veth" ++ l.destination.name ++ toString (l.destination.port.getD 0) ++
        " netns " ++ l.destination.name) ∈ vethPhase topo.links := by
      refine List.mem_flatMap.mpr ⟨l, hl, ?_⟩
      simp [build_veth]
    rw [hscript]
    constructor
    · exact List.mem_append.mpr (Or.inr (List.mem_append.mpr (Or.inl hsrc)))
    · exact List.mem_append.mpr (Or.inr (List.mem_append.mpr (Or.inl hdst)))

/-- Witness for C6 at the dangling-link topology. -/
theorem claim6_witness :
    "ip link set vethh10 netns h1" ∈ exScriptDangling ∧
    "ip link set vethghost0 netns ghost" ∈ exScriptDangling :=
  claim6_no_validation topoDangling exScriptDangling rfl
    { source := { name := "h1", port := none },
      destination := { name := "ghost", port := none } }
    (by decide)

/-- **C1** — For every topology whose links all reference declared nodes and
that compiles successfully, the setup sequence begins with the namespace
phase (first conjunct), so every operation of phases 2–6 sits at an index
`≥ (nsPhase inits).length`; and for every node owning a device referenced by
a phase-2–6 operation (`laterOwners`: the link endpoints for phase 2, the
emitting node itself for phases 3–6), the `create-namespace` command for
that node sits at an index `< (nsPhase inits).length` (second conjunct) —
hence strictly earlier in the flat sequence than every phase-2–6 operation. -/
theorem claim1_namespace_first (topo : Topology) (inits : List (Node × NodeBehavior))
    (script : List String)
    (hinit : initNodes topo.nodes = Except.ok inits)
    (hok : setupScript topo = Except.ok script)
    (hlinks : linksDeclared topo) :
    script.take (nsPhase inits).length = nsPhase inits ∧
    ∀ name ∈ laterOwners topo, ∃ i, i < (nsPhase inits).length ∧
      script[i]? = some ("ip netns add " ++ name) := by
  obtain ⟨ips, extras, hips, hex, hscript⟩ := setup_decomp topo inits script hinit hok
  constructor
  · rw [hscript]
    exact List.take_left _ _
  · intro name hname
    have hmem : name ∈ topo.nodes.map Node.name := by
      simp only [laterOwners] at hname
      rcases List.mem_append.mp hname with h1 | h2
      · obtain ⟨l, hl, hn⟩ := List.mem_flatMap.mp h1
        have hld := hlinks l hl
        simp only [List.mem_cons, List.mem_singleton, List.not_mem_nil, or_false] at hn
        rcases hn with rfl | rfl
        · exact hld.1
        · exact hld.2
      · exact h2
    have hmem2 : name ∈ inits.map fun p => p.1.name := by
      rw [initNodes_names topo.nodes inits hinit]
      exact hmem
    obtain ⟨i, hi, hget⟩ := nsPhase_mem_nsAdd inits name hmem2
    refine ⟨i, hi, ?_⟩
    rw [hscript, List.getElem?_append_left hi]
    exact hget

/-- Witness for C1 at the spec's example topology. -/
theorem claim1_witness :
    exScript.take (nsPhase exInits).length = nsPhase exInits ∧
    ∀ name ∈ laterOwners exTopo, ∃ i, i < (nsPhase exInits).length ∧
      exScript[i]? = some ("ip netns add " ++ name) :=
  claim1_namespace_first exTopo exInits exScript rfl rfl
    (by unfold linksDeclared; decide)

/-- The namespace phase decomposes into one `ip netns add` command per node,
in declared order, each followed by that node's (possibly empty) block of
namespace-wrapped bridge commands. -/
theorem nsPhase_decomp : ∀ inits : List (Node × NodeBehavior),
    nsPhase inits =
      ((inits.map Prod.fst).zip
        (inits.map fun nb => (dispatch_build_namespace nb.2 nb.1.name).drop 1)).flatMap
        (fun pr => ("ip netns add " ++ pr.1.name) :: pr.2) := by
  intro inits
  induction inits with
  | nil => rfl
  | cons nb t ih =>
    show dispatch_build_namespace nb.2 nb.1.name ++ nsPhase t = _
    conv_lhs => rw [dispatch_bn_head nb.2 nb.1.name]
    simp only [List.map_cons, List.zip_cons_cons, List.flatMap_cons]
    rw [ih]

/-- **C10** — The first phase of the setup sequence contains exactly one
namespace-creation command per declared node (first conjunct, needing the
distinct-names invariant), laid out in declared node order with only
namespace-wrapped bridge commands interleaved (second conjunct); and every
declared node — in particular one with an empty ports list that appears in
no link, since neither conjunct looks at ports or links — also receives its
deletion command in the cleanup sequence (third conjunct). -/
theorem claim10_ns_per_node (topo : Topology) (inits : List (Node × NodeBehavior))
    (hinit : initNodes topo.nodes = Except.ok inits)
    (hdist : (topo.nodes.map Node.name).Nodup) :
    (∀ n ∈ topo.nodes, (nsPhase inits).count ("ip netns add " ++ n.name) = 1) ∧
    (∃ rests : List (List String), rests.length = topo.nodes.length ∧
      (∀ r ∈ rests, ∀ s ∈ r, ∃ a, s = "ip netns exec " ++ a) ∧
      nsPhase inits = (topo.nodes.zip rests).flatMap
        (fun pr => ("ip netns add " ++ pr.1.name) :: pr.2)) ∧
    (∀ n ∈ topo.nodes, ("ip netns del " ++ n.name) ∈ cleanupScript topo) := by
  have hfst := initNodes_map_fst topo.nodes inits hinit
  refine ⟨?_, ?_, ?_⟩
  · intro n hn
    rw [count_nsPhase, initNodes_names topo.nodes inits hinit]
    exact List.count_eq_one_of_mem hdist (List.mem_map_of_mem Node.name hn)
  · refine ⟨inits.map fun nb => (dispatch_build_namespace nb.2 nb.1.name).drop 1,
      ?_, ?_, ?_⟩
    · rw [List.length_map, ← hfst, List.length_map]
    · intro r hr s hs
      obtain ⟨nb, hnb, rfl⟩ := List.mem_map.mp hr
      exact dispatch_bn_drop_exec nb.2 nb.1.name s hs
    · rw [← hfst]
      exact nsPhase_decomp inits
  · intro n hn
    exact List.mem_flatMap.mpr ⟨n, hn, by simp [clean_ns]⟩

/-- Witness for C10 at the spec's example topology. -/
theorem claim10_witness :
    (∀ n ∈ exTopo.nodes, (nsPhase exInits).count ("ip netns add " ++ n.name) = 1) ∧
    (∃ rests : List (List String), rests.length = exTopo.nodes.length ∧
      (∀ r ∈ rests, ∀ s ∈ r, ∃ a, s = "ip netns exec " ++ a) ∧
      nsPhase exInits = (exTopo.nodes.zip rests).flatMap
        (fun pr => ("ip netns add " ++ pr.1.name) :: pr.2)) ∧
    (∀ n ∈ exTopo.nodes, ("ip netns del " ++ n.name) ∈ cleanupScript exTopo) :=
  claim10_ns_per_node exTopo exInits rfl (by decide)

/-- Associativity of string concatenation, via character data. -/
theorem str_assoc (s t u : String) : s ++ t ++ u = s ++ (t ++ u) := by
  apply string_eq_of_data
  simp [String.data_append]

/-- An address-assignment command is never a route command. -/
theorem addr_ne_route (x y : String) : "ip addr add " ++ x ≠ "ip route add " ++ y :=
  string_append_ne _ _ _ _ 3 (by decide) (by decide) (by decide)

/-- **C2** — For a router node and a non-zero port, `configure_ip` produces
exactly an address assignment on the bridge device `br<name>` plus, when a
(nonempty) gateway is given, a default route — all inside the router's
namespace (first conjunct); the address assignment on the individual veth
device `veth<name><port>` is never among its output (second conjunct); and
for port 0 the veth device is addressed directly (third conjunct). -/
theorem claim2_router_bridges_nonzero_ports (name ip : String) (gw : Option String)
    (port : Nat) (hport : port ≠ 0) :
    Router.configure_ip name port ip gw =
      ("ip netns exec " ++ name ++ " " ++
          ("ip addr add " ++ ip ++ " dev " ++ ("br" ++ name))) ::
        (match gw with
         | some g => if g = "" then [] else
             ["ip netns exec " ++ name ++ " " ++ ("ip route add " ++ "default" ++ " via " ++ g)]
         | none => []) ∧
    ("ip netns exec " ++ name ++ " " ++
        ("ip addr add " ++ ip ++ " dev " ++ ("veth" ++ name ++ toString port)))
      ∉ Router.configure_ip name port ip gw ∧
    Router.configure_ip name 0 ip gw =
      ("ip netns exec " ++ name ++ " " ++
          ("ip addr add " ++ ip ++ " dev " ++ ("veth" ++ name ++ toString 0))) ::
        (match gw with
         | some g => if g = "" then [] else
             ["ip netns exec " ++ name ++ " " ++ ("ip route add " ++ "default" ++ " via " ++ g)]
         | none => []) := by
  have heq1 : Router.configure_ip name port ip gw =
      ("ip netns exec " ++ name ++ " " ++
          ("ip addr add " ++ ip ++ " dev " ++ ("br" ++ name))) ::
        (match gw with
         | some g => if g = "" then [] else
             ["ip netns exec " ++ name ++ " " ++ ("ip route add " ++ "default" ++ " via " ++ g)]
         | none => []) := by
    unfold Router.configure_ip
    rw [if_neg hport]
    unfold BaseNode.configure_ip
    dsimp only
    rw [if_neg (br_ne_empty name)]
    cases gw with
    | none => rfl
    | some g =>
      dsimp only
      by_cases hg : g = ""
      · rw [if_pos hg, if_pos hg]
        rfl
      · rw [if_neg hg, if_neg hg]
        rfl
  refine ⟨heq1, ?_, ?_⟩
  · intro hmem
    rw [heq1] at hmem
    rcases List.mem_cons.mp hmem with heq | htail
    · have h1 := string_append_cancel ("ip netns exec " ++ name ++ " ") _ _ heq
      have h2 := string_append_cancel ("ip addr add " ++ ip ++ " dev ") _ _ h1
      rw [str_assoc] at h2
      exact veth_ne_br (name ++ toString port) name h2
    · cases gw with
      | none => simp at htail
      | some g =>
        dsimp only at htail
        by_cases hg : g = ""
        · rw [if_pos hg] at htail; simp at htail
        · rw [if_neg hg] at htail
          rw [List.mem_singleton] at htail
          have h1 := string_append_cancel ("ip netns exec " ++ name ++ " ") _ _ htail
          simp only [str_assoc] at h1
          exact addr_ne_route _ _ h1
  · unfold Router.configure_ip
    rw [if_pos rfl]
    unfold BaseNode.configure_ip
    dsimp only
    cases gw with
    | none => rfl
    | some g =>
      dsimp only
      by_cases hg : g = ""
      · rw [if_pos hg, if_pos hg]
        rfl
      · rw [if_neg hg, if_neg hg]
        rfl

/-- Witness for C2 at port 1 of router `r1` with a gateway. -/
theorem claim2_witness :
    Router.configure_ip "r1" 1 "10.0.1.1/24" (some "10.0.1.254") =
      ("ip netns exec " ++ "r1" ++ " " ++
          ("ip addr add " ++ "10.0.1.1/24" ++ " dev " ++ ("br" ++ "r1"))) ::
        (match (some "10.0.1.254" : Option String) with
         | some g => if g = "" then [] else
             ["ip netns exec " ++ "r1" ++ " " ++ ("ip route add " ++ "default" ++ " via " ++ g)]
         | none => []) ∧
    ("ip netns exec " ++ "r1" ++ " " ++
        ("ip addr add " ++ "10.0.1.1/24" ++ " dev " ++ ("veth" ++ "r1" ++ toString 1)))
      ∉ Router.configure_ip "r1" 1 "10.0.1.1/24" (some "10.0.1.254") ∧
    Router.configure_ip "r1" 0 "10.0.1.1/24" (some "10.0.1.254") =
      ("ip netns exec " ++ "r1" ++ " " ++
          ("ip addr add " ++ "10.0.1.1/24" ++ " dev " ++ ("veth" ++ "r1" ++ toString 0))) ::
        (match (some "10.0.1.254" : Option String) with
         | some g => if g = "" then [] else
             ["ip netns exec " ++ "r1" ++ " " ++ ("ip route add " ++ "default" ++ " via " ++ g)]
         | none => []) :=
  claim2_router_bridges_nonzero_ports "r1" "10.0.1.1/24" (some "10.0.1.254") 1 (by decide)
